import Mathlib

/-
Verification of the CPE calculation platform: a shallow embedding of the
CPE aggregation engine (hooks/useCpeCalculator), the slide ruling
operations of the slide editor (handleFinalize, handleDiscardConfirm,
handleUndoDiscard), and the row-to-slide pipeline shared by the XLSX and
CSV ingestion parsers (services/fileParser.ts).

JavaScript numbers are modelled as exact rationals (ℚ); `Math.floor`
becomes `Int.floor`.  Strings are Lean strings.
-/

/-- The `SourceType` enum from types.ts: `OST`, `Audio`, `Both`. -/
inductive SourceType where
  | OST : SourceType
  | AUDIO : SourceType
  | BOTH : SourceType
deriving DecidableEq, Repr

/-- The `AudioMeta` record from types.ts, reduced to its always-present
discriminator `source : 'upload' | 'manual'`; the remaining fields are
optional and unused by the operations verified here. -/
structure AudioMeta where
  source : String
deriving DecidableEq, Repr

/-- The `Slide` record from types.ts.  Optional string fields
(`discardReason`, `discardNote`, timestamps) are modelled with `""` as
the absent value, and the optional `isDiscarded` flag defaults to
`false`, matching how the code reads them. -/
structure Slide where
  id : Int
  ost : String
  transcript : String
  selectedSource : SourceType
  audioDuration : ℚ
  isFinalized : Bool
  audioMeta : AudioMeta
  isDiscarded : Bool := false
  discardReason : String := ""
  discardNote : String := ""
  discardedAt : String := ""
  discardedBy : String := ""
  undoAt : String := ""
  undoBy : String := ""
deriving DecidableEq, Repr

/-- The `CpeMetrics` record from types.ts. -/
structure CpeMetrics where
  totalWords : ℚ
  totalAvMinutes : ℚ
  totalQuestions : ℚ
  wordsCpe : ℚ
  avCpe : ℚ
  questionsCpe : ℚ
  rawCpeHours : ℚ
  roundedCpe : ℚ
deriving DecidableEq, Repr

/-- Helper for `getWordCount`: counts the maximal runs of non-whitespace
characters in a character list; the boolean records whether the previous
character was inside such a run. -/
def countWordsAux : List Char → Bool → Nat
  | [], _ => 0
  | c :: cs, inWord =>
    if c.isWhitespace then countWordsAux cs false
    else (if inWord then 0 else 1) + countWordsAux cs true

/-- `getWordCount` from hooks/useCpeCalculator.ts (also duplicated in the
slide editor): `text.trim().split(/\s+/).filter(Boolean).length`, i.e.
the number of whitespace-separated tokens that remain after discarding
empty tokens — the number of maximal non-whitespace runs. -/
def getWordCount (text : String) : Nat :=
  countWordsAux text.toList false

/-- The JavaScript expression `x || 0` applied to a number: every falsy
numeric value (`0`, and `NaN`, which ℚ cannot represent) coerces to `0`;
every other number passes through.  On ℚ this is the identity. -/
def jsOr0 (x : ℚ) : ℚ :=
  if x = 0 then 0 else x

/-- The accumulator of the `reduce` in `useCpeCalculator`:
`{ totalWords: 0, totalAvMinutes: 0 }`. -/
structure Totals where
  totalWords : ℚ
  totalAvMinutes : ℚ
deriving DecidableEq, Repr

/-- The reducer body of the `reduce` in `useCpeCalculator`: a slide adds
its on-screen-text word count, its audio duration, or both, according to
`selectedSource`. -/
def slideStep (acc : Totals) (slide : Slide) : Totals :=
  match slide.selectedSource with
  | SourceType.OST =>
      { acc with totalWords := acc.totalWords + (getWordCount slide.ost : ℚ) }
  | SourceType.AUDIO =>
      { acc with totalAvMinutes := acc.totalAvMinutes + slide.audioDuration }
  | SourceType.BOTH =>
      { totalWords := acc.totalWords + (getWordCount slide.ost : ℚ),
        totalAvMinutes := acc.totalAvMinutes + slide.audioDuration }

/-- Lines 10–30 of `useCpeCalculator`: filter out discarded slides, then
reduce the active slides to word and minute totals. -/
def totalsOf (slides : List Slide) : Totals :=
  (slides.filter (fun slide => !slide.isDiscarded)).foldl slideStep
    { totalWords := 0, totalAvMinutes := 0 }

/-- The CPE aggregation engine `useCpeCalculator(slides, reviewQuestions,
finalExamQuestions)` from hooks/useCpeCalculator.ts (the `useMemo` wrapper
is pure memoization and is dropped). -/
def useCpeCalculator (slides : List Slide)
    (reviewQuestions finalExamQuestions : ℚ) : CpeMetrics :=
  let totals := totalsOf slides
  let totalQuestions := jsOr0 reviewQuestions + jsOr0 finalExamQuestions
  let wordsCpe := totals.totalWords / 180
  let avCpe := totals.totalAvMinutes
  let questionsCpe := totalQuestions * 1.85
  let totalCpeMinutes := wordsCpe + avCpe + questionsCpe
  let rawCpeHours := totalCpeMinutes / 60
  let roundedCpe := (⌊rawCpeHours * 2⌋ : ℚ) / 2
  { totalWords := totals.totalWords
    totalAvMinutes := totals.totalAvMinutes
    totalQuestions := totalQuestions
    wordsCpe := wordsCpe
    avCpe := avCpe
    questionsCpe := questionsCpe
    rawCpeHours := rawCpeHours
    roundedCpe := if roundedCpe > 0 then roundedCpe else 0 }

/-- The map `(totalWords, totalAvMinutes, totalQuestions) ↦ roundedCpe`
realised by lines 34–49 of `useCpeCalculator`: the rounded CPE is a
function of the three totals alone. -/
def roundedCpeOf (totalWords totalAvMinutes totalQuestions : ℚ) : ℚ :=
  if (⌊(totalWords / 180 + totalAvMinutes + totalQuestions * 1.85) / 60 * 2⌋ : ℚ) / 2 > 0
  then (⌊(totalWords / 180 + totalAvMinutes + totalQuestions * 1.85) / 60 * 2⌋ : ℚ) / 2
  else 0

/-- A finalized audio-sourced slide with the given narration duration;
used as a concrete input for evaluating the engine. -/
def audioSlide (d : ℚ) : Slide :=
  { id := 1, ost := "", transcript := "", selectedSource := SourceType.AUDIO,
    audioDuration := d, isFinalized := true, audioMeta := { source := "manual" } }


/-- The clamp `x > 0 ? x : 0` on line 49 of the engine equals `max x 0`. -/
lemma pos_clamp_eq_max (x : ℚ) : (if x > 0 then x else 0) = max x 0 := by
  rcases le_or_lt x 0 with h | h
  · rw [if_neg (not_lt.mpr h), max_eq_right h]
  · rw [if_pos h, max_eq_left h.le]

/-- On rationals (which have no NaN), the engine's `x || 0` sanitizer is
the identity: `0` is the only falsy rational and `0 || 0` is `0`. -/
lemma jsOr0_eq (x : ℚ) : jsOr0 x = x := by
  unfold jsOr0
  split
  · rename_i h
    rw [h]
  · rfl

/-- The engine's `roundedCpe` output is the clamped half-floor of its
`rawCpeHours` output. -/
lemma useCpeCalculator_roundedCpe (slides : List Slide) (r f : ℚ) :
    (useCpeCalculator slides r f).roundedCpe =
      max ((⌊(useCpeCalculator slides r f).rawCpeHours * 2⌋ : ℚ) / 2) 0 := by
  rw [← pos_clamp_eq_max]
  rfl

/-- Appending one non-discarded slide extends the reduce by one step. -/
lemma totalsOf_append_active (slides : List Slide) (s : Slide)
    (h : s.isDiscarded = false) :
    totalsOf (slides ++ [s]) = slideStep (totalsOf slides) s := by
  unfold totalsOf
  rw [List.filter_append, List.foldl_append]
  simp [h]

/-- A character list made of whitespace only contains no word. -/
lemma countWordsAux_all_ws :
    ∀ (l : List Char) (b : Bool), (∀ c ∈ l, c.isWhitespace) → countWordsAux l b = 0 := by
  intro l
  induction l with
  | nil => intro b _; rfl
  | cons c cs ih =>
    intro b h
    have hc : c.isWhitespace := h c (List.mem_cons_self c cs)
    simp only [countWordsAux, hc, if_true]
    exact ih false (fun x hx => h x (List.mem_cons_of_mem c hx))

/-- C1: for every slide collection and question counts the engine computes
`rawCpeHours = (wordsCpe + avCpe + questionsCpe) / 60` and
`roundedCpe = floor(rawCpeHours * 2) / 2` clamped below at `0`, so the
rounding never goes up (`roundedCpe ≤ rawCpeHours` whenever `rawCpeHours`
is non-negative); concretely `rawCpeHours = 1.74` and `1.75` both round to
`1.5` while `2.0` stays `2.0`. -/
theorem cpe_rounding_law :
    (∀ (slides : List Slide) (r f : ℚ),
      (useCpeCalculator slides r f).rawCpeHours =
        ((useCpeCalculator slides r f).wordsCpe + (useCpeCalculator slides r f).avCpe +
          (useCpeCalculator slides r f).questionsCpe) / 60 ∧
      (useCpeCalculator slides r f).roundedCpe =
        max ((⌊(useCpeCalculator slides r f).rawCpeHours * 2⌋ : ℚ) / 2) 0 ∧
      (0 ≤ (useCpeCalculator slides r f).rawCpeHours →
        (useCpeCalculator slides r f).roundedCpe ≤ (useCpeCalculator slides r f).rawCpeHours)) ∧
    (useCpeCalculator [audioSlide (522/5)] 0 0).rawCpeHours = 1.74 ∧
    (useCpeCalculator [audioSlide (522/5)] 0 0).roundedCpe = 1.5 ∧
    (useCpeCalculator [audioSlide 105] 0 0).rawCpeHours = 1.75 ∧
    (useCpeCalculator [audioSlide 105] 0 0).roundedCpe = 1.5 ∧
    (useCpeCalculator [audioSlide 120] 0 0).rawCpeHours = 2 ∧
    (useCpeCalculator [audioSlide 120] 0 0).roundedCpe = 2 := by
  refine ⟨fun slides r f => ⟨rfl, useCpeCalculator_roundedCpe slides r f, fun h0 => ?_⟩,
    ?_, ?_, ?_, ?_, ?_, ?_⟩
  · rw [useCpeCalculator_roundedCpe]
    apply max_le _ h0
    rw [div_le_iff₀ (by norm_num : (0:ℚ) < 2)]
    exact Int.floor_le _
  all_goals
    simp [useCpeCalculator, totalsOf, slideStep, jsOr0, audioSlide]
    norm_num

/-- C1 witness: the general rounding law applied to the concrete input of
one audio slide of 120 minutes, whose raw CPE hours are non-negative. -/
theorem cpe_rounding_law_witness :
    (0 : ℚ) ≤ (useCpeCalculator [audioSlide 120] 0 0).rawCpeHours ∧
    (useCpeCalculator [audioSlide 120] 0 0).roundedCpe ≤
      (useCpeCalculator [audioSlide 120] 0 0).rawCpeHours := by
  have h0 : (0 : ℚ) ≤ (useCpeCalculator [audioSlide 120] 0 0).rawCpeHours := by
    simp [useCpeCalculator, totalsOf, slideStep, jsOr0, audioSlide]
    norm_num
  exact ⟨h0, (cpe_rounding_law.1 [audioSlide 120] 0 0).2.2 h0⟩

/-- C2: discarded slides contribute nothing — the engine's output on any
collection equals its output on the subcollection of non-discarded
slides, because the engine filters on `isDiscarded` before reducing. -/
theorem discarded_slides_contribute_zero :
    ∀ (slides : List Slide) (r f : ℚ),
      useCpeCalculator slides r f =
        useCpeCalculator (slides.filter (fun s => !s.isDiscarded)) r f := by
  intro slides r f
  have h : totalsOf (slides.filter (fun s => !s.isDiscarded)) = totalsOf slides := by
    unfold totalsOf
    rw [List.filter_filter]
    simp
  unfold useCpeCalculator
  rw [h]

/-- C3: an active slide's contribution to the totals is decided by its
`selectedSource` — OST contributes its on-screen-text word count and no
minutes, AUDIO contributes its duration and no words, BOTH contributes
both; and `getWordCount` counts whitespace-separated tokens, ignoring
leading/trailing whitespace, with all-whitespace text counting zero. -/
theorem active_slide_contribution :
    (∀ (slides : List Slide) (r f : ℚ) (s : Slide), s.isDiscarded = false →
      (useCpeCalculator (slides ++ [s]) r f).totalWords =
        (useCpeCalculator slides r f).totalWords +
          (match s.selectedSource with
           | SourceType.OST => (getWordCount s.ost : ℚ)
           | SourceType.AUDIO => 0
           | SourceType.BOTH => (getWordCount s.ost : ℚ)) ∧
      (useCpeCalculator (slides ++ [s]) r f).totalAvMinutes =
        (useCpeCalculator slides r f).totalAvMinutes +
          (match s.selectedSource with
           | SourceType.OST => 0
           | SourceType.AUDIO => s.audioDuration
           | SourceType.BOTH => s.audioDuration)) ∧
    getWordCount "" = 0 ∧
    (∀ t : String, (∀ c ∈ t.toList, c.isWhitespace) → getWordCount t = 0) ∧
    getWordCount "  the quick  brown fox " = 4 ∧
    getWordCount "the quick brown fox" = 4 := by
  refine ⟨?_, by decide, ?_, by decide, by decide⟩
  · intro slides r f s h
    constructor
    · show (totalsOf (slides ++ [s])).totalWords = (totalsOf slides).totalWords + _
      rw [totalsOf_append_active slides s h]
      cases hsrc : s.selectedSource <;> simp [slideStep, hsrc]
    · show (totalsOf (slides ++ [s])).totalAvMinutes = (totalsOf slides).totalAvMinutes + _
      rw [totalsOf_append_active slides s h]
      cases hsrc : s.selectedSource <;> simp [slideStep, hsrc]
  · intro t h
    exact countWordsAux_all_ws t.toList false h

/-- C3 witness: the contribution law applied to one concrete active audio
slide of 5 minutes appended to the empty collection. -/
theorem active_slide_contribution_witness :
    (useCpeCalculator ([] ++ [audioSlide 5]) 0 0).totalAvMinutes =
      (useCpeCalculator [] 0 0).totalAvMinutes + 5 := by
  have h := (active_slide_contribution.1 [] 0 0 (audioSlide 5) rfl).2
  simpa [audioSlide] using h

/-- C6 counterexample: the engine does not clamp negative question counts;
with `reviewQuestions = -3` the computed `totalQuestions` is `-3`, not the
`0` the claim predicts. -/
theorem question_counts_negative_cex :
    (useCpeCalculator [] (-3) 0).totalQuestions = -3 ∧ (-3 : ℚ) < 0 := by
  constructor
  · show jsOr0 (-3) + jsOr0 0 = -3
    norm_num [jsOr0]
  · norm_num

/-- C6 amended: `totalQuestions = reviewQuestions + finalExamQuestions`
with every (rational) count passed through unchanged — the engine's
`|| 0` only coerces falsy values, it never clamps negatives — and
`questionsCpe = totalQuestions * 1.85`. -/
theorem total_questions_sum :
    ∀ (slides : List Slide) (r f : ℚ),
      (useCpeCalculator slides r f).totalQuestions = r + f ∧
      (useCpeCalculator slides r f).questionsCpe = (r + f) * 1.85 := by
  intro slides r f
  constructor
  · show jsOr0 r + jsOr0 f = r + f
    rw [jsOr0_eq, jsOr0_eq]
  · show (jsOr0 r + jsOr0 f) * 1.85 = (r + f) * 1.85
    rw [jsOr0_eq, jsOr0_eq]

/-- The rounded CPE, as a function of the three totals, is monotone in all
three totals simultaneously. -/
lemma roundedCpeOf_mono (w w' av av' q q' : ℚ)
    (hw : w ≤ w') (hav : av ≤ av') (hq : q ≤ q') :
    roundedCpeOf w av q ≤ roundedCpeOf w' av' q' := by
  unfold roundedCpeOf
  have hraw : (w / 180 + av + q * 1.85) / 60 ≤ (w' / 180 + av' + q' * 1.85) / 60 := by
    have h1 : w / 180 ≤ w' / 180 := by linarith
    have h2 : q * 1.85 ≤ q' * 1.85 := by nlinarith
    linarith
  have hfl : (⌊(w / 180 + av + q * 1.85) / 60 * 2⌋ : ℚ) ≤
      (⌊(w' / 180 + av' + q' * 1.85) / 60 * 2⌋ : ℚ) := by
    exact_mod_cast Int.floor_mono (by linarith)
  rw [pos_clamp_eq_max, pos_clamp_eq_max]
  exact max_le_max (by linarith) le_rfl

/-- C7: the engine's rounded CPE is `roundedCpeOf` applied to its own
three totals, and `roundedCpeOf` is monotone non-decreasing in each of
`totalWords`, `totalAvMinutes` and `totalQuestions` separately. -/
theorem roundedCpe_monotone :
    (∀ (slides : List Slide) (r f : ℚ),
      (useCpeCalculator slides r f).roundedCpe =
        roundedCpeOf (useCpeCalculator slides r f).totalWords
          (useCpeCalculator slides r f).totalAvMinutes
          (useCpeCalculator slides r f).totalQuestions) ∧
    (∀ w w' av q : ℚ, w ≤ w' → roundedCpeOf w av q ≤ roundedCpeOf w' av q) ∧
    (∀ w av av' q : ℚ, av ≤ av' → roundedCpeOf w av q ≤ roundedCpeOf w av' q) ∧
    (∀ w av q q' : ℚ, q ≤ q' → roundedCpeOf w av q ≤ roundedCpeOf w av q') := by
  refine ⟨fun slides r f => rfl,
    fun w w' av q h => roundedCpeOf_mono w w' av av q q h le_rfl le_rfl,
    fun w av av' q h => roundedCpeOf_mono w w av av' q q le_rfl h le_rfl,
    fun w av q q' h => roundedCpeOf_mono w w av av q q' le_rfl le_rfl h⟩

/-- C7 witness: monotonicity applied at concrete totals `0 ≤ 120` in the
minutes coordinate. -/
theorem roundedCpe_monotone_witness :
    (0 : ℚ) ≤ 120 ∧ roundedCpeOf 0 0 0 ≤ roundedCpeOf 0 120 0 :=
  ⟨by norm_num, roundedCpe_monotone.2.2.1 0 0 120 0 (by norm_num)⟩

/-- C10: for every input whatsoever the engine's rounded CPE is
non-negative and an integer multiple of one half. -/
theorem roundedCpe_nonneg_half_step :
    ∀ (slides : List Slide) (r f : ℚ),
      0 ≤ (useCpeCalculator slides r f).roundedCpe ∧
      ∃ n : ℕ, (useCpeCalculator slides r f).roundedCpe = (n : ℚ) / 2 := by
  intro slides r f
  rw [useCpeCalculator_roundedCpe]
  constructor
  · exact le_max_right _ _
  · rcases le_or_lt ((⌊(useCpeCalculator slides r f).rawCpeHours * 2⌋ : ℚ)) 0 with h | h
    · refine ⟨0, ?_⟩
      rw [max_eq_right (by linarith : (⌊(useCpeCalculator slides r f).rawCpeHours * 2⌋ : ℚ) / 2 ≤ 0)]
      norm_num
    · refine ⟨(⌊(useCpeCalculator slides r f).rawCpeHours * 2⌋).toNat, ?_⟩
      have hm0 : 0 ≤ ⌊(useCpeCalculator slides r f).rawCpeHours * 2⌋ := by exact_mod_cast h.le
      have hc : (((⌊(useCpeCalculator slides r f).rawCpeHours * 2⌋).toNat : ℕ) : ℚ) =
          ((⌊(useCpeCalculator slides r f).rawCpeHours * 2⌋ : ℤ) : ℚ) := by
        exact_mod_cast Int.toNat_of_nonneg hm0
      rw [max_eq_left (by linarith : (0:ℚ) ≤ (⌊(useCpeCalculator slides r f).rawCpeHours * 2⌋ : ℚ) / 2), hc]

/-- The editable component state of the slide editor (SlideEditor in the
source): the `useState` fields that `handleFinalize` and
`handleDiscardConfirm` read (`ost`, `transcript`, `selectedSource`,
`audioDuration`, `audioMeta`, `isFinalized`). -/
structure EditorState where
  ost : String
  transcript : String
  selectedSource : SourceType
  audioDuration : ℚ
  audioMeta : AudioMeta
  isFinalized : Bool
deriving DecidableEq, Repr

/-- `handleFinalize` from the slide editor, restricted to its effect on
the slide record: when the slide is not finalized, the source includes
audio and the duration is `0`, it sets an error and returns `false`
without calling `onUpdate` (modelled as `none`, the slide unchanged);
otherwise it toggles `isFinalized` and passes the snapshot of the current
editable fields to `onUpdate` (modelled as `some` of that slide). -/
def handleFinalize (slide : Slide) (st : EditorState) : Option Slide :=
  if st.isFinalized = false ∧
      (st.selectedSource = SourceType.AUDIO ∨ st.selectedSource = SourceType.BOTH) ∧
      st.audioDuration = 0 then
    none
  else
    some { slide with
      ost := st.ost, transcript := st.transcript,
      selectedSource := st.selectedSource, audioDuration := st.audioDuration,
      audioMeta := st.audioMeta, isFinalized := !st.isFinalized }

/-- `handleDiscardConfirm` from the slide editor: an empty `discardReason`
returns early (modelled as `none`, the slide unchanged); otherwise the
slide is marked discarded with the current editable fields saved, the
reason, a note kept only for the reason `"Other"`, and audit stamps. -/
def handleDiscardConfirm (slide : Slide) (st : EditorState)
    (discardReason discardNote now user : String) : Option Slide :=
  if discardReason = "" then
    none
  else
    some { slide with
      ost := st.ost, transcript := st.transcript,
      selectedSource := st.selectedSource, audioDuration := st.audioDuration,
      audioMeta := st.audioMeta,
      isDiscarded := true, discardReason := discardReason,
      discardNote := if discardReason = "Other" then discardNote else "",
      discardedAt := now, discardedBy := user }

/-- `handleUndoDiscard` from the slide editor: clears `isDiscarded` and
stamps `undoAt`/`undoBy`, leaving every other field of the slide as it
was. -/
def handleUndoDiscard (slide : Slide) (now user : String) : Slide :=
  { slide with isDiscarded := false, undoAt := now, undoBy := user }

/-- C4: finalizing a draft slide fails without mutating anything when the
source includes audio and the duration is zero, and succeeds for any
duration strictly greater than zero, snapshotting the current editable
fields (with `isFinalized` set) as the slide's locked values. -/
theorem finalize_guard :
    ∀ (slide : Slide) (st : EditorState), st.isFinalized = false →
      ((st.selectedSource = SourceType.AUDIO ∨ st.selectedSource = SourceType.BOTH) →
        st.audioDuration = 0 → handleFinalize slide st = none) ∧
      (∀ d : ℚ, 0 < d →
        handleFinalize slide { st with audioDuration := d } =
          some { slide with
                 ost := st.ost, transcript := st.transcript,
                 selectedSource := st.selectedSource, audioDuration := d,
                 audioMeta := st.audioMeta, isFinalized := true }) := by
  intro slide st hdraft
  constructor
  · intro hsrc hdur
    unfold handleFinalize
    rw [if_pos ⟨hdraft, hsrc, hdur⟩]
  · intro d hd
    unfold handleFinalize
    rw [if_neg]
    · simp [hdraft]
    · rintro ⟨-, -, h3⟩
      exact absurd h3 (ne_of_gt hd)

/-- C4 witness: a draft audio-sourced editor state with duration `0`
fails to finalize, and the same state with duration `1` succeeds. -/
theorem finalize_guard_witness :
    handleFinalize (audioSlide 0)
      { ost := "", transcript := "", selectedSource := SourceType.AUDIO,
        audioDuration := 0, audioMeta := { source := "manual" },
        isFinalized := false } = none ∧
    handleFinalize (audioSlide 0)
      { ({ ost := "", transcript := "", selectedSource := SourceType.AUDIO,
           audioDuration := 0, audioMeta := { source := "manual" },
           isFinalized := false } : EditorState) with audioDuration := 1 } ≠ none := by
  have h := finalize_guard (audioSlide 0)
    { ost := "", transcript := "", selectedSource := SourceType.AUDIO,
      audioDuration := 0, audioMeta := { source := "manual" },
      isFinalized := false } rfl
  refine ⟨h.1 (Or.inl rfl) rfl, ?_⟩
  rw [h.2 1 (by norm_num)]
  exact Option.some_ne_none _

/-- C5 counterexample: undoing the discard of a slide that was finalized
when discarded neither clears `discardReason` nor re-enters Draft — the
result keeps `isFinalized = true` and the reason `"Other"`. -/
theorem undo_discard_keeps_state_cex :
    ¬(((handleUndoDiscard
        { id := 1, ost := "", transcript := "", selectedSource := SourceType.OST,
          audioDuration := 0, isFinalized := true, audioMeta := { source := "manual" },
          isDiscarded := true, discardReason := "Other", discardNote := "",
          discardedAt := "2024-01-01", discardedBy := "user" }
        "2024-01-02" "user").isFinalized = false) ∧
      ((handleUndoDiscard
        { id := 1, ost := "", transcript := "", selectedSource := SourceType.OST,
          audioDuration := 0, isFinalized := true, audioMeta := { source := "manual" },
          isDiscarded := true, discardReason := "Other", discardNote := "",
          discardedAt := "2024-01-01", discardedBy := "user" }
        "2024-01-02" "user").discardReason = "")) := by
  intro h
  simp [handleUndoDiscard] at h

/-- C5 amended: undo-discard always succeeds, clears `isDiscarded` and
stamps the undo audit fields, but keeps `discardReason`, `discardNote`
and — in particular — `isFinalized` exactly as they were: a slide that was
finalized when discarded re-enters as Finalized, not Draft. -/
theorem undo_discard_behaviour :
    ∀ (slide : Slide) (now user : String),
      (handleUndoDiscard slide now user).isDiscarded = false ∧
      (handleUndoDiscard slide now user).undoAt = now ∧
      (handleUndoDiscard slide now user).undoBy = user ∧
      (handleUndoDiscard slide now user).isFinalized = slide.isFinalized ∧
      (handleUndoDiscard slide now user).discardReason = slide.discardReason ∧
      (handleUndoDiscard slide now user).discardNote = slide.discardNote ∧
      (handleUndoDiscard slide now user).ost = slide.ost ∧
      (handleUndoDiscard slide now user).transcript = slide.transcript ∧
      (handleUndoDiscard slide now user).selectedSource = slide.selectedSource ∧
      (handleUndoDiscard slide now user).audioDuration = slide.audioDuration := by
  intro slide now user
  exact ⟨rfl, rfl, rfl, rfl, rfl, rfl, rfl, rfl, rfl, rfl⟩

/-- C8: discarding with an empty reason is rejected with the slide
unchanged; any non-empty reason succeeds (whether the slide is Draft or
Finalized — `isFinalized` is carried over untouched), and the reason
`"Other"` with an empty note succeeds with an empty saved note. -/
theorem discard_requires_reason :
    ∀ (slide : Slide) (st : EditorState) (note now user : String),
      handleDiscardConfirm slide st "" note now user = none ∧
      (∀ reason : String, reason ≠ "" →
        ∃ s', handleDiscardConfirm slide st reason note now user = some s' ∧
          s'.isDiscarded = true ∧ s'.discardReason = reason ∧
          s'.isFinalized = slide.isFinalized) ∧
      (∃ s', handleDiscardConfirm slide st "Other" "" now user = some s' ∧
        s'.isDiscarded = true ∧ s'.discardNote = "") := by
  intro slide st note now user
  refine ⟨?_, ?_, ?_⟩
  · unfold handleDiscardConfirm
    rw [if_pos rfl]
  · intro reason hne
    unfold handleDiscardConfirm
    rw [if_neg hne]
    exact ⟨_, rfl, rfl, rfl, rfl⟩
  · unfold handleDiscardConfirm
    rw [if_neg (by decide : ¬("Other" : String) = "")]
    refine ⟨_, rfl, rfl, ?_⟩
    show (if ("Other" : String) = "Other" then "" else "") = ""
    rw [if_pos rfl]

/-- C8 witness: an empty reason is rejected while the non-empty reason
`"Duplicate content"` discards a finalized slide successfully. -/
theorem discard_requires_reason_witness :
    handleDiscardConfirm (audioSlide 5)
      { ost := "", transcript := "", selectedSource := SourceType.AUDIO,
        audioDuration := 5, audioMeta := { source := "manual" },
        isFinalized := true }
      "" "" "2024-01-01" "user" = none ∧
    handleDiscardConfirm (audioSlide 5)
      { ost := "", transcript := "", selectedSource := SourceType.AUDIO,
        audioDuration := 5, audioMeta := { source := "manual" },
        isFinalized := true }
      "Duplicate content" "" "2024-01-01" "user" ≠ none := by
  have h := discard_requires_reason (audioSlide 5)
    { ost := "", transcript := "", selectedSource := SourceType.AUDIO,
      audioDuration := 5, audioMeta := { source := "manual" },
      isFinalized := true } "" "2024-01-01" "user"
  obtain ⟨s', h1, h2, h3, h4⟩ := h.2.1 "Duplicate content" (by decide)
  refine ⟨h.1, ?_⟩
  rw [h1]
  exact Option.some_ne_none _

/-- JavaScript `parseInt(s, 10)`: skip leading whitespace, read an
optional sign, then the longest prefix of decimal digits; `NaN` (here
`none`) when there is no digit. -/
def jsParseInt (s : String) : Option Int :=
  let cs := s.toList.dropWhile (fun c => c.isWhitespace)
  let signAndRest : Int × List Char :=
    match cs with
    | '-' :: rest => (-1, rest)
    | '+' :: rest => (1, rest)
    | _ => (1, cs)
  let digits := signAndRest.2.takeWhile (fun c => c.isDigit)
  if digits.isEmpty then none
  else some (signAndRest.1 *
    ((digits.foldl (fun n c => n * 10 + (c.toNat - 48)) 0 : Nat) : Int))

/-- The slide-number cell test used by both parsers:
`parseInt(cell, 10)` succeeding with a value `> 0`
(`!isNaN(idFromCell) && idFromCell > 0`). -/
def posIntOfCell (cell : String) : Option Int :=
  match jsParseInt cell with
  | some n => if 0 < n then some n else none
  | none => none

/-- One data row, reduced to the three cells the parsers read, each
already stringified (`String(row[i] || '')`). -/
structure Row where
  slideNo : String
  ost : String
  transcript : String
deriving DecidableEq, Repr

/-- `ostIndex !== -1 ? String(row[ostIndex] || '') : ''`: a cell read
from a column that is absent yields the empty string. -/
def cellStr (present : Bool) (cell : String) : String :=
  if present then cell else ""

/-- `createSlideObject` from services/fileParser.ts. -/
def createSlideObject (id : Int) (ost transcript : String) : Slide :=
  { id := id, ost := ost, transcript := transcript,
    selectedSource := SourceType.OST, audioDuration := 0,
    isFinalized := false, audioMeta := { source := "manual" },
    isDiscarded := false }

/-- JavaScript `s.trim()`: the string with leading and trailing
whitespace removed (written over the character list so that it computes
by kernel reduction). -/
def jsTrim (s : String) : String :=
  String.mk
    (((s.toList.dropWhile (fun c => c.isWhitespace)).reverse.dropWhile
      (fun c => c.isWhitespace)).reverse)

/-- The row filter shared by `parseXlsx` (lines 52–61) and `parseCsv`
(lines 103–112): when the slide-number column is present, keep the row
iff its cell parses as a positive integer; otherwise fall back to the
content check — keep iff either trimmed text cell is non-empty. -/
def keepRow (hasSlideNo hasOst hasTranscript : Bool) (r : Row) : Bool :=
  if hasSlideNo then
    (posIntOfCell r.slideNo).isSome
  else
    decide (0 < (jsTrim (cellStr hasOst r.ost)).length) ||
      decide (0 < (jsTrim (cellStr hasTranscript r.transcript)).length)

/-- The `.map((row, index) => ...)` of both parsers: build a slide per
retained row, with `slideId = index + 1` overridden by the slide-number
cell when that column is present and the cell parses as a positive
integer.  The extra `Nat` argument is the running 0-based index. -/
def buildSlides (hasSlideNo hasOst hasTranscript : Bool) : Nat → List Row → List Slide
  | _, [] => []
  | idx, r :: rest =>
    createSlideObject
      (match (if hasSlideNo then posIntOfCell r.slideNo else none) with
       | some n => n
       | none => (idx : Int) + 1)
      (cellStr hasOst r.ost) (cellStr hasTranscript r.transcript) ::
      buildSlides hasSlideNo hasOst hasTranscript (idx + 1) rest

/-- The row-to-slide pipeline of `parseXlsx` (lines 52–76) and `parseCsv`
(lines 103–127), which are identical at this level: filter the data rows,
then map them to slides with 0-based indices. -/
def parseRows (hasSlideNo hasOst hasTranscript : Bool) (rows : List Row) : List Slide :=
  buildSlides hasSlideNo hasOst hasTranscript 0
    (rows.filter (keepRow hasSlideNo hasOst hasTranscript))

/-- C9 counterexample: with a slide-number column present, a row whose id
cell (`"x"`) does not parse is dropped even though its OST cell
(`"hello"`) is non-empty — contradicting the claim that only rows with no
numeric id AND empty content in both text fields are dropped. -/
theorem parser_unparseable_id_row_dropped_cex :
    parseRows true true true [{ slideNo := "x", ost := "hello", transcript := "" }] = [] ∧
    0 < (jsTrim "hello").length := by
  constructor
  · rfl
  · decide

/-- When the slide-number column is present and every row's cell parses,
the index-carrying map never uses its sequential fallback: it is a plain
map taking each id from the cell. -/
lemma buildSlides_all_some (ho ht : Bool) :
    ∀ (l : List Row) (n : Nat),
      (∀ r ∈ l, (posIntOfCell r.slideNo).isSome = true) →
      buildSlides true ho ht n l =
        l.map (fun r => createSlideObject ((posIntOfCell r.slideNo).getD 0)
          (cellStr ho r.ost) (cellStr ht r.transcript)) := by
  intro l
  induction l with
  | nil => intro n _; rfl
  | cons r rest ih =>
    intro n h
    have hr := h r (List.mem_cons_self r rest)
    obtain ⟨k, hk⟩ := Option.isSome_iff_exists.mp hr
    rw [List.map_cons, ← ih (n + 1) (fun x hx => h x (List.mem_cons_of_mem r hx))]
    simp [buildSlides, hk]

/-- Without a slide-number column, the slide at position `i` of the built
list is the row at position `i` with the 1-based sequential id `n+i+1`. -/
lemma buildSlides_get_no_col (ho ht : Bool) :
    ∀ (l : List Row) (n i : Nat),
      (buildSlides false ho ht n l).get? i =
        (l.get? i).map (fun r => createSlideObject ((n : Int) + (i : Int) + 1)
          (cellStr ho r.ost) (cellStr ht r.transcript)) := by
  intro l
  induction l with
  | nil => intro n i; simp [buildSlides]
  | cons r rest ih =>
    intro n i
    cases i with
    | zero => simp [buildSlides]
    | succ j =>
      simp only [buildSlides, List.get?_cons_succ]
      rw [ih (n + 1) j]
      have hcast : ((n + 1 : ℕ) : Int) + (j : Int) + 1 =
          (n : Int) + ((j + 1 : ℕ) : Int) + 1 := by push_cast; ring
      rw [hcast]

/-- C9 amended: dropping happens before id assignment, but the drop
criterion and the id source depend on whether the slide-number column is
present.  With the column: a row is retained iff its cell parses as a
positive integer (content is ignored, so content-bearing rows with
unparseable cells are dropped), and every retained row takes its id from
the cell — the sequential fallback never fires.  Without the column: a
row is retained iff either trimmed text cell is non-empty, and the
retained rows get 1-based sequential ids, so dropped rows never consume a
sequence number. -/
theorem parser_id_assignment :
    (∀ (ho ht : Bool) (rows : List Row),
      parseRows true ho ht rows =
        (rows.filter (fun r => (posIntOfCell r.slideNo).isSome)).map
          (fun r => createSlideObject ((posIntOfCell r.slideNo).getD 0)
            (cellStr ho r.ost) (cellStr ht r.transcript))) ∧
    (∀ (ho ht : Bool) (rows : List Row) (i : Nat),
      (parseRows false ho ht rows).get? i =
        ((rows.filter (fun r =>
            decide (0 < (jsTrim (cellStr ho r.ost)).length) ||
              decide (0 < (jsTrim (cellStr ht r.transcript)).length))).get? i).map
          (fun r => createSlideObject ((i : Int) + 1)
            (cellStr ho r.ost) (cellStr ht r.transcript))) := by
  constructor
  · intro ho ht rows
    unfold parseRows
    have hfe : rows.filter (keepRow true ho ht) =
        rows.filter (fun r => (posIntOfCell r.slideNo).isSome) :=
      List.filter_congr (fun r _ => rfl)
    rw [hfe]
    exact buildSlides_all_some ho ht _ 0 (fun r hr => (List.mem_filter.mp hr).2)
  · intro ho ht rows i
    unfold parseRows
    have hfe : rows.filter (keepRow false ho ht) =
        rows.filter (fun r =>
          decide (0 < (jsTrim (cellStr ho r.ost)).length) ||
            decide (0 < (jsTrim (cellStr ht r.transcript)).length)) :=
      List.filter_congr (fun r _ => rfl)
    rw [hfe, buildSlides_get_no_col]
    simp
